import Mathlib

/-!
Verification of the moonlander repository against its specification.

The flight-dynamics / landing-adjudication core described by the spec lives in
the game files `main.js`, `constants.js` and `globals.js`, which are not part
of the source tree under verification; only their HUD consumer (`hud.js`), the
wallet / contract-integration scripts and the `MoonlanderGame.sol` contract
are.  Definitions for the missing core are therefore modelled from the spec
(each such definition says so in its doc comment); definitions for the HUD,
the score-submission guard and the contract are translated from the source.

Kinematic quantities are modelled over `ℚ`: the spec's speed test
`√(vx²+vy²) ≤ threshold` is expressed as the equivalent squared comparison,
and rotation wrapping to `(-π, π]` (irrational bound) is omitted — no claim
under proof depends on it.
-/

namespace Moonlander

/-- Modelled from the spec: `CraftState` of section 3 (owned by the game core in
`main.js`/`globals.js`, absent from `src/`): position, velocity, acceleration
accumulator (integrated from the thrust jerk), rotation and fuel. -/
structure CraftState where
  x : ℚ
  y : ℚ
  vx : ℚ
  vy : ℚ
  ax : ℚ
  ay : ℚ
  rotation : ℚ
  fuel : ℚ
deriving DecidableEq, Repr

/-- Modelled from the spec: the per-frame control input sample of section 6,
`thrustMagnitude ∈ [0,1]` and `rotateDirection ∈ {-1,0,1}` (the input handler
feeding `main.js` is absent from `src/`). -/
structure Control where
  thrust : ℚ
  rotate : ℤ
deriving DecidableEq, Repr

/-- Modelled from the spec: the tuning constants of the missing game core
(`constants.js`, absent from `src/`).  Section 9 of the spec directs that the
landing thresholds be treated as configuration inputs rather than literals, so
they are fields here; `dirX`/`dirY` abstract the thrust direction derived from
the rotation (the trigonometry of the missing core is not representable
exactly over `ℚ`). -/
structure Params where
  gravity : ℚ
  damping : ℚ
  jerkScale : ℚ
  rotRate : ℚ
  maxRotRate : ℚ
  fuelRate : ℚ
  edgeMargin : ℚ
  vmax : ℚ
  maxAngle : ℚ
  baseScore : ℕ
  fuelBonus : ℚ
  dirX : ℚ → ℚ
  dirY : ℚ → ℚ

/-- Modelled from the spec: the Terrain Model's playable-area bounds of
section 4.2 (terrain construction lives in the missing `terrainData.js` /
`main.js`); the leftmost and rightmost x-coordinates bound the playable
area. -/
structure TerrainBounds where
  minX : ℚ
  maxX : ℚ
deriving DecidableEq, Repr

/-- Modelled from the spec: the ephemeral `ContactEvent` of section 3 produced
by the Collision Detector (missing from `src/`): horizontal position of the
contact, contacted segment's slope and score multiplier, and whether both leg
circles are grounded on the same (or adjoining flat) segment — the latter is
determined by the detector's tie-break of section 4.3 and carried as a flag. -/
structure ContactEvent where
  x : ℚ
  slope : ℚ
  multiplier : ℕ
  legsGrounded : Bool
deriving DecidableEq, Repr

/-- Modelled from the spec: the crash reasons of the `RoundOutcome` in
section 3. -/
inductive CrashReason where
  | outOfBounds
  | edgeProximity
  | unevenTerrain
  | angleTooHigh
  | velocityTooHigh
deriving DecidableEq, Repr

/-- Modelled from the spec: the tagged `RoundOutcome` of section 3. -/
inductive RoundOutcome where
  | safe (multiplier : ℕ)
  | crashed (reason : CrashReason)
deriving DecidableEq, Repr

/-- Predicate 1 of the Landing Validator (spec 4.4): the craft position is
inside the terrain's x-range. -/
abbrev inBoundsP (T : TerrainBounds) (s : CraftState) : Prop :=
  T.minX ≤ s.x ∧ s.x ≤ T.maxX

/-- Predicate 2 of the Landing Validator (spec 4.4): the contact is at least
the edge margin away from both terrain boundaries. -/
abbrev awayFromEdgeP (P : Params) (T : TerrainBounds) (ev : ContactEvent) : Prop :=
  P.edgeMargin ≤ ev.x - T.minX ∧ P.edgeMargin ≤ T.maxX - ev.x

/-- Predicate 3 of the Landing Validator (spec 4.4): the contacted segment's
slope is exactly zero. -/
abbrev flatSlopeP (ev : ContactEvent) : Prop := ev.slope = 0

/-- Predicate 4 of the Landing Validator (spec 4.4): the combined speed
magnitude is at or below the safe threshold, stated on squares (equivalent to
`√(vx²+vy²) ≤ vmax` for a nonnegative threshold). -/
abbrev speedOkP (P : Params) (s : CraftState) : Prop :=
  s.vx ^ 2 + s.vy ^ 2 ≤ P.vmax ^ 2

/-- Predicate 5 of the Landing Validator (spec 4.4): the absolute rotation is
at or below the safe angle threshold. -/
abbrev angleOkP (P : Params) (s : CraftState) : Prop :=
  |s.rotation| ≤ P.maxAngle

/-- Predicate 6 of the Landing Validator (spec 4.4): both leg circles are
simultaneously grounded. -/
abbrev legsOkP (ev : ContactEvent) : Prop := ev.legsGrounded = true

/-- Modelled from the spec: the Landing Validator `classify` of section 4.4
(the game core's landing check in `main.js` is absent from `src/`): the
ordered predicates are evaluated short-circuit, the first failing predicate
determines the crash reason, a failing predicate 6 is treated as
`UnevenTerrain`, and if none fail the outcome is `Safe` carrying the contacted
segment's score multiplier. -/
def classify (P : Params) (T : TerrainBounds) (ev : ContactEvent) (s : CraftState) :
    RoundOutcome :=
  if ¬ inBoundsP T s then .crashed .outOfBounds
  else if ¬ awayFromEdgeP P T ev then .crashed .edgeProximity
  else if ¬ flatSlopeP ev then .crashed .unevenTerrain
  else if ¬ speedOkP P s then .crashed .velocityTooHigh
  else if ¬ angleOkP P s then .crashed .angleTooHigh
  else if ¬ legsOkP ev then .crashed .unevenTerrain
  else .safe ev.multiplier

/-- Modelled from the spec: the effective thrust of section 4.1 (missing game
core): once fuel is 0, thrust inputs are accepted but act as zero. -/
def effectiveThrust (s : CraftState) (c : Control) : ℚ :=
  if 0 < s.fuel then c.thrust else 0

/-- Modelled from the spec: the horizontal jerk term set by the thruster while
the control is held (section 4.1; `main.js` is absent from `src/`). -/
def jerkX (P : Params) (s : CraftState) (c : Control) : ℚ :=
  P.jerkScale * effectiveThrust s c * P.dirX s.rotation

/-- Modelled from the spec: the vertical jerk term set by the thruster while
the control is held (section 4.1). -/
def jerkY (P : Params) (s : CraftState) (c : Control) : ℚ :=
  P.jerkScale * effectiveThrust s c * P.dirY s.rotation

/-- Modelled from the spec: the Physics Integrator `advance` of section 4.1
(the game core in `main.js`/`constants.js` is absent from `src/`).  Thrust
sets a jerk term; acceleration is integrated from jerk, velocity from
acceleration and position from velocity, each scaled by `dt`; gravity is a
constant downward acceleration independent of thrust; horizontal velocity is
additionally damped toward zero by the fixed factor `damping` every frame
independent of thruster use; vertical velocity is never damped; rotation
changes by the rotational input times the rotation rate, clamped to the
maximum angular rate, times `dt`; fuel decreases proportionally to thrust
magnitude times `dt` while positive and is floored at zero. -/
def advance (P : Params) (s : CraftState) (c : Control) (dt : ℚ) : CraftState :=
  let ax := s.ax + jerkX P s c * dt
  let ay := s.ay + jerkY P s c * dt
  let vx := P.damping * (s.vx + ax * dt)
  let vy := s.vy + (ay - P.gravity) * dt
  { x := s.x + vx * dt
    y := s.y + vy * dt
    vx := vx
    vy := vy
    ax := ax
    ay := ay
    rotation := s.rotation +
      max (-P.maxRotRate) (min P.maxRotRate ((c.rotate : ℚ) * P.rotRate)) * dt
    fuel := if 0 < s.fuel
      then max 0 (s.fuel - P.fuelRate * effectiveThrust s c * dt)
      else s.fuel }

/-- Modelled from the spec: the Collision Detector of section 4.3, abstracted
to its contract `detect : craft state → Option ContactEvent` (its code is
absent from `src/` and no claim under proof depends on its circle–segment
geometry; keeping it a parameter lets the out-of-bounds claim state literally
that the detector is not consulted). -/
abbrev Detector : Type := CraftState → Option ContactEvent

/-- Modelled from the spec: the Round State Machine's per-frame contact
resolution (sections 4.2 and 4.4; `main.js` is absent from `src/`): any craft
position outside the terrain's x-range is immediately classified
`OutOfBounds` without invoking the Collision Detector; otherwise the detector
runs and, on contact, the Landing Validator classifies the event. -/
def checkRound (P : Params) (T : TerrainBounds) (D : Detector) (s : CraftState) :
    Option RoundOutcome :=
  if s.x < T.minX ∨ T.maxX < s.x then some (.crashed .outOfBounds)
  else
    match D s with
    | none => none
    | some ev => some (classify P T ev s)

/-- Modelled from the spec: the Round State Machine phases of section 4.5;
`Resolved` carries the round's outcome until it is applied. -/
inductive RoundPhase where
  | spawning
  | flying
  | resolved (o : RoundOutcome)
  | betweenRounds
  | gameOver
deriving DecidableEq, Repr

/-- Modelled from the spec: the aggregate round state of section 4.5 /
design note of section 9 (score and craft owned by the Round State Machine;
`globals.js` is absent from `src/`). -/
structure GameState where
  phase : RoundPhase
  craft : CraftState
  score : ℕ
deriving DecidableEq, Repr

/-- Modelled from the spec: the outcome application of section 4.5 (`main.js`
is absent from `src/`): on `Safe`, score increases by base score times the
multiplier and fuel by the fixed bonus; on a crash, score and fuel are left
unchanged beyond what was already consumed in flight. -/
def applyOutcome (P : Params) (g : GameState) (o : RoundOutcome) : GameState :=
  match o with
  | .safe m =>
      { g with
        score := g.score + P.baseScore * m
        craft := { g.craft with fuel := g.craft.fuel + P.fuelBonus } }
  | .crashed _ => g

/-- Modelled from the spec: the Round State Machine's frame step of
section 4.5 (`main.js` is absent from `src/`).  `Spawning` transitions
immediately to `Flying`; `Flying` advances physics then resolves contact;
`Resolved` applies the outcome and transitions to `GameOver` if fuel ≤ 0 and
to `BetweenRounds` otherwise; `BetweenRounds` waits for an explicit continue;
`GameOver` is terminal with no further physics advancement. -/
def step (P : Params) (T : TerrainBounds) (D : Detector) (g : GameState)
    (c : Control) (dt : ℚ) : GameState :=
  match g.phase with
  | .spawning => { g with phase := .flying }
  | .flying =>
      let s := advance P g.craft c dt
      match checkRound P T D s with
      | none => { g with craft := s }
      | some o => { g with craft := s, phase := .resolved o }
  | .resolved o =>
      let g2 := applyOutcome P g o
      { g2 with phase := if g2.craft.fuel ≤ 0 then .gameOver else .betweenRounds }
  | .betweenRounds => g
  | .gameOver => g

/-- Modelled from the spec: a concrete pseudo-random generator standing in for
the missing core's randomization (the spec's determinism property of
section 8 quantifies over a fixed seed; the actual generator in `main.js` is
absent from `src/`). -/
def lcg (n : ℕ) : ℕ := (1103515245 * n + 12345) % 2147483648

/-- Modelled from the spec: round spawn of sections 3 and 4.5 (`main.js` is
absent from `src/`): the craft is created at a randomized x and altitude with
a randomized nonzero horizontal velocity, zero acceleration and rotation, and
full fuel taken from the parameterized tank size 1000. -/
def spawnCraft (seed : ℕ) : CraftState :=
  { x := (lcg seed % 1000 : ℕ)
    y := 500 + ((lcg (lcg seed) % 100 : ℕ) : ℚ)
    vx := 1 + ((lcg (lcg (lcg seed)) % 10 : ℕ) : ℚ)
    vy := 0
    ax := 0
    ay := 0
    rotation := 0
    fuel := 1000 }

/-- Modelled from the spec: a fresh game from a seed, entering the initial
`Spawning` phase of section 4.5. -/
def initGame (seed : ℕ) : GameState :=
  { phase := .spawning, craft := spawnCraft seed, score := 0 }

/-- Modelled from the spec: repeated application of `step` over a control
input sequence, returning the trajectory of game states (section 8's
determinism property). -/
def runSim (P : Params) (T : TerrainBounds) (D : Detector) :
    GameState → List (Control × ℚ) → List GameState
  | _, [] => []
  | g, (c, dt) :: rest =>
      let g2 := step P T D g c dt
      g2 :: runSim P T D g2 rest

/-- A 2-D point, as stored in the `lineSegments` terrain data consumed by
`hud.js` (`drawMultipliers` in the source). -/
structure Vec2 where
  x : ℚ
  y : ℚ
deriving DecidableEq, Repr

/-- One terrain line segment as `hud.js` reads it: `lineSegments[i][0]` is the
left endpoint and `lineSegments[i][1]` the right endpoint. -/
structure HudSegment where
  left : Vec2
  right : Vec2
deriving DecidableEq, Repr

/-- A multiplier label as produced by `drawMultipliers` in `hud.js`: the text
and the world-space anchor handed to `worldToHudCoord` (the HUD-space
transform and font offset are presentation styling and are not modelled). -/
structure MulLabel where
  text : String
  x : ℚ
  y : ℚ
deriving DecidableEq, Repr

/-- The label `drawMultipliers` builds for one segment: text `"X" + mul`,
anchored at `((left.x + right.x) / 2, left.y)` per the source
(`pointX = (leftVector.x + rightVector.x) / 2; pointY = leftVector.y`). -/
def mulLabel (m : ℕ) (seg : HudSegment) : MulLabel :=
  { text := "X" ++ toString m
    x := (seg.left.x + seg.right.x) / 2
    y := seg.left.y }

/-- `drawMultipliers` from `hud.js`: returns nothing while the game is over
(`if (isGameOver) return;`), otherwise walks the multiplier list in step with
the segment list and emits a label for every segment whose multiplier is not
below 2 (`if (mul < 2) continue;`). -/
def drawMultipliers (isGameOver : Bool) (scoreMultipliers : List ℕ)
    (lineSegments : List HudSegment) : List MulLabel :=
  if isGameOver then []
  else
    (scoreMultipliers.zip lineSegments).filterMap fun p =>
      if p.1 < 2 then none else some (mulLabel p.1 p.2)

/-- The geometric midpoint of a segment, written from the spec claim's words
("at the segment's midpoint") for comparison with what the source draws. -/
def segMidpoint (seg : HudSegment) : ℚ × ℚ :=
  ((seg.left.x + seg.right.x) / 2, (seg.left.y + seg.right.y) / 2)

/-- The wallet-session flags read by `submitScore` in the contract-integration
script: `currentAccount` non-null and `gameStarted` set by a confirmed
`payGame` transaction. -/
structure WalletState where
  connected : Bool
  gameStarted : Bool
deriving DecidableEq, Repr

/-- Result of the front-end `submitScore`: either it returns `false` having
sent no transaction, or it sends the contract transaction carrying exactly
the given score and landed flag. -/
inductive SubmitAction where
  | rejected
  | sent (score : ℚ) (landed : ℚ)
deriving DecidableEq, Repr

/-- `submitScore(score, landed)` from the contract-integration script: rejects
when no account is connected or no paid game session is active
(`!currentAccount || !gameStarted`), when the score is not a positive integer
(`!Number.isInteger(score) || score <= 0`), or when the landed flag is
outside {0, 1} (`landed !== 0 && landed !== 1`); otherwise it sends
`contract.submitScore(score, landed)`.  JavaScript numbers are modelled as
rationals, with `Number.isInteger` as denominator 1. -/
def submitScore (w : WalletState) (score landed : ℚ) : SubmitAction :=
  if !w.connected || !w.gameStarted then .rejected
  else if ¬ score.den = 1 ∨ score ≤ 0 then .rejected
  else if landed ≠ 0 ∧ landed ≠ 1 then .rejected
  else .sent score landed

/-- Modelled from the spec: the ledger-emission policy of section 6 (the
caller in `main.js` is absent from `src/`): only on `Safe` outcomes reaching
a terminal game-over is the external ledger collaborator handed the final
integer score together with the binary landed flag. -/
def ledgerEmit (terminalGameOver : Bool) (o : RoundOutcome) (finalScore : ℕ) :
    Option (ℕ × ℕ) :=
  match terminalGameOver, o with
  | true, .safe _ => some (finalScore, 1)
  | _, _ => none

/-- The EVM word bound; Solidity 0.8 checked arithmetic reverts at or above
it. -/
def UMAX : ℕ := 2 ^ 256

/-- The on-chain state touched by `MoonlanderGame.playGame` for a single
player, with the m00nad balances of the three parties involved.  The ERC20
token itself is an OpenZeppelin import not present in the source tree;
`transferFrom` is modelled by its interface contract (succeeds exactly when
balance and allowance suffice). -/
structure ChainState where
  playerBal : ℕ
  contractBal : ℕ
  ownerBal : ℕ
  allowance : ℕ
  totalBurned : ℕ
  totalRevenue : ℕ
  totalGames : ℕ
  hasActiveGame : Bool
  lastGameTimestamp : ℕ
  paused : Bool
deriving DecidableEq, Repr

/-- `MoonlanderGame.playGame` from the Solidity source: reverts when paused or
when the entry-fee `transferFrom` fails; records the game session; computes
`burnAmount = (entryFee * 80) / 100` and `platformAmount = (entryFee * 20) /
100`; the burn share stays in the contract and is added to `totalBurned`; the
platform share is transferred to the owner; `totalRevenue` grows by the fee.
Solidity 0.8 checked arithmetic is modelled by explicit `UMAX` guards
(`none` is a revert). -/
def playGame (entryFee nowTs : ℕ) (st : ChainState) : Option ChainState :=
  if st.paused then none
  else if st.playerBal < entryFee then none
  else if st.allowance < entryFee then none
  else if UMAX ≤ st.contractBal + entryFee then none
  else if UMAX ≤ st.totalGames + 1 then none
  else if UMAX ≤ entryFee * 80 then none
  else if UMAX ≤ st.totalBurned + entryFee * 80 / 100 then none
  else if UMAX ≤ st.ownerBal + entryFee * 20 / 100 then none
  else if UMAX ≤ st.totalRevenue + entryFee then none
  else
    some
      { playerBal := st.playerBal - entryFee
        contractBal := st.contractBal + entryFee - entryFee * 20 / 100
        ownerBal := st.ownerBal + entryFee * 20 / 100
        allowance := st.allowance - entryFee
        totalBurned := st.totalBurned + entryFee * 80 / 100
        totalRevenue := st.totalRevenue + entryFee
        totalGames := st.totalGames + 1
        hasActiveGame := true
        lastGameTimestamp := nowTs
        paused := st.paused }

/-- Concrete parameter instance used by the witnesses below. -/
def paramsW : Params :=
  { gravity := 1
    damping := 9 / 10
    jerkScale := 2
    rotRate := 1
    maxRotRate := 3
    fuelRate := 1
    edgeMargin := 5
    vmax := 4
    maxAngle := 1
    baseScore := 50
    fuelBonus := 100
    dirX := fun _ => 0
    dirY := fun _ => 1 }

/-- Concrete terrain bounds used by the witnesses. -/
def boundsW : TerrainBounds := { minX := 0, maxX := 100 }

/-- Concrete contact event used by the witnesses. -/
def eventW : ContactEvent := { x := 50, slope := 0, multiplier := 3, legsGrounded := true }

/-- Concrete craft state used by the witnesses. -/
def craftW : CraftState :=
  { x := 50, y := 10, vx := 1, vy := -2, ax := 0, ay := 0, rotation := 1 / 2, fuel := 200 }

/-- Concrete out-of-bounds craft state used by the witnesses. -/
def craftOOB : CraftState := { craftW with x := -10 }

/-- Concrete control sample used by the witnesses. -/
def controlW : Control := { thrust := 1 / 2, rotate := 1 }

/-- A detector reporting no contact, used by the witnesses. -/
def detectorNone : Detector := fun _ => none

/-- A detector always reporting the witness contact event. -/
def detectorAlways : Detector := fun _ => some eventW

/-- Concrete in-flight game state used by the witnesses. -/
def gameFlyingW : GameState := { phase := .flying, craft := craftW, score := 0 }

/-- Concrete resolved-safe game state with empty tank, used by the witnesses. -/
def gameResolvedW : GameState :=
  { phase := .resolved (.safe 2), craft := { craftW with fuel := 0 }, score := 10 }

/-- A slanted terrain segment used to test the multiplier-label anchor. -/
def slantSeg : HudSegment := { left := { x := 0, y := 0 }, right := { x := 2, y := 2 } }

/-- The default entry fee of the contract, 100,000 m00nad with 18 decimals. -/
def feeW : ℕ := 100000 * 10 ^ 18

/-- Concrete chain state used by the witnesses. -/
def chainW : ChainState :=
  { playerBal := 10 ^ 30
    contractBal := 0
    ownerBal := 0
    allowance := 10 ^ 30
    totalBurned := 0
    totalRevenue := 0
    totalGames := 0
    hasActiveGame := false
    lastGameTimestamp := 0
    paused := false }

/-- The chain state after the witness `playGame` call. -/
def chainW2 : ChainState :=
  { playerBal := 10 ^ 30 - feeW
    contractBal := feeW - feeW * 20 / 100
    ownerBal := feeW * 20 / 100
    allowance := 10 ^ 30 - feeW
    totalBurned := feeW * 80 / 100
    totalRevenue := feeW
    totalGames := 1
    hasActiveGame := true
    lastGameTimestamp := 7
    paused := false }

/-- Claim C1: for every contact event, the Landing Validator's `classify`
returns `Safe` (carrying the contacted segment's multiplier) iff all six
predicates hold; otherwise the outcome is `Crashed` with the reason of the
first failing predicate in the stated order — in particular, flipping any
single predicate to false while the others hold yields exactly that
predicate's crash reason. -/
theorem classify_safe_iff_firstFail (P : Params) (T : TerrainBounds)
    (ev : ContactEvent) (s : CraftState) :
    ((∃ m, classify P T ev s = .safe m) ↔
      (inBoundsP T s ∧ awayFromEdgeP P T ev ∧ flatSlopeP ev ∧
        speedOkP P s ∧ angleOkP P s ∧ legsOkP ev))
    ∧ (inBoundsP T s → awayFromEdgeP P T ev → flatSlopeP ev → speedOkP P s →
        angleOkP P s → legsOkP ev → classify P T ev s = .safe ev.multiplier)
    ∧ (¬ inBoundsP T s → classify P T ev s = .crashed .outOfBounds)
    ∧ (inBoundsP T s → ¬ awayFromEdgeP P T ev →
        classify P T ev s = .crashed .edgeProximity)
    ∧ (inBoundsP T s → awayFromEdgeP P T ev → ¬ flatSlopeP ev →
        classify P T ev s = .crashed .unevenTerrain)
    ∧ (inBoundsP T s → awayFromEdgeP P T ev → flatSlopeP ev → ¬ speedOkP P s →
        classify P T ev s = .crashed .velocityTooHigh)
    ∧ (inBoundsP T s → awayFromEdgeP P T ev → flatSlopeP ev → speedOkP P s →
        ¬ angleOkP P s → classify P T ev s = .crashed .angleTooHigh)
    ∧ (inBoundsP T s → awayFromEdgeP P T ev → flatSlopeP ev → speedOkP P s →
        angleOkP P s → ¬ legsOkP ev →
        classify P T ev s = .crashed .unevenTerrain) := by
  unfold classify
  split_ifs with h1 h2 h3 h4 h5 h6 <;> simp_all
  exact ⟨h1, h2, h3, h6⟩

/-- Witness for the C1 theorem at a concrete contact where all six predicates
hold, landing safely with the segment's multiplier 3. -/
theorem classify_safe_iff_firstFail_w :
    classify paramsW boundsW eventW craftW = .safe 3 :=
  (classify_safe_iff_firstFail paramsW boundsW eventW craftW).2.1
    (by norm_num [inBoundsP, boundsW, craftW])
    (by norm_num [awayFromEdgeP, paramsW, boundsW, eventW])
    (by norm_num [flatSlopeP, eventW])
    (by norm_num [speedOkP, paramsW, craftW])
    (by norm_num [angleOkP, paramsW, craftW, abs_le])
    (by norm_num [legsOkP, eventW])

/-- Claim C2: a craft whose x-coordinate is outside the terrain's x-range is
classified `Crashed(OutOfBounds)` without the Collision Detector being
consulted (the result is the same under any detector), and regardless of its
velocity and rotation. -/
theorem outOfBounds_before_detector (P : Params) (T : TerrainBounds)
    (D D2 : Detector) (s : CraftState)
    (h : s.x < T.minX ∨ T.maxX < s.x) :
    checkRound P T D s = some (.crashed .outOfBounds)
    ∧ checkRound P T D s = checkRound P T D2 s
    ∧ (∀ s2 : CraftState, s2.x = s.x →
        checkRound P T D s2 = some (.crashed .outOfBounds)) := by
  refine ⟨?_, ?_, fun s2 hx => ?_⟩
  · simp [checkRound, h]
  · simp [checkRound, h]
  · simp [checkRound, h, hx]

/-- Witness for the C2 theorem: a craft left of the playable area crashes
out-of-bounds under a contact-free detector and an always-contact detector
alike. -/
theorem outOfBounds_before_detector_w :
    checkRound paramsW boundsW detectorNone craftOOB = some (.crashed .outOfBounds)
    ∧ checkRound paramsW boundsW detectorNone craftOOB =
        checkRound paramsW boundsW detectorAlways craftOOB :=
  ⟨(outOfBounds_before_detector paramsW boundsW detectorNone detectorAlways craftOOB
      (by norm_num [craftOOB, craftW, boundsW])).1,
   (outOfBounds_before_detector paramsW boundsW detectorNone detectorAlways craftOOB
      (by norm_num [craftOOB, craftW, boundsW])).2.1⟩

/-- Claim C3: `advance` integrates acceleration from the thrust jerk, velocity
from acceleration and position from velocity, each scaled by `dt`; the
horizontal velocity is multiplied by the fixed damping factor every frame
whatever the control is, the vertical velocity sees only gravity and the
integrated vertical component with no damping factor, and thrust never sets
velocity directly: relative to the same frame flown with the thruster
released, thrust shifts velocity only at second order in `dt` (through the
integrated jerk). -/
theorem advance_jerk_integration (P : Params) (s : CraftState) (c : Control) (dt : ℚ) :
    (advance P s c dt).ax = s.ax + jerkX P s c * dt
    ∧ (advance P s c dt).ay = s.ay + jerkY P s c * dt
    ∧ (advance P s c dt).vx = P.damping * (s.vx + (s.ax + jerkX P s c * dt) * dt)
    ∧ (advance P s c dt).vy = s.vy + ((s.ay + jerkY P s c * dt) - P.gravity) * dt
    ∧ (advance P s c dt).x = s.x + (advance P s c dt).vx * dt
    ∧ (advance P s c dt).y = s.y + (advance P s c dt).vy * dt
    ∧ (advance P s c dt).vx - (advance P s { thrust := 0, rotate := c.rotate } dt).vx
        = P.damping * (jerkX P s c * dt * dt)
    ∧ (advance P s c dt).vy - (advance P s { thrust := 0, rotate := c.rotate } dt).vy
        = jerkY P s c * dt * dt := by
  refine ⟨rfl, rfl, rfl, rfl, rfl, rfl, ?_, ?_⟩ <;>
    by_cases hf : 0 < s.fuel <;>
      simp [advance, jerkX, jerkY, effectiveThrust, hf] <;> ring

theorem advance_fuel_eq (P : Params) (s : CraftState) (c : Control) (dt : ℚ) :
    (advance P s c dt).fuel =
      if 0 < s.fuel then max 0 (s.fuel - P.fuelRate * effectiveThrust s c * dt)
      else s.fuel := rfl

/-- Claim C4: fuel invariants.  Under nonnegative `dt`, fuel rate and thrust:
fuel stays nonnegative, never increases during `advance`, is unchanged when
no thrust is applied, decreases by exactly `fuelRate * thrust * dt` while
enough fuel remains, and with an empty tank a held thrust input is accepted
but acts exactly like a released thruster (purely ballistic frame); a crash
outcome leaves fuel unchanged and the only fuel increase anywhere is the
fixed `Safe`-landing bonus; a fuel-less contact-free frame stays in `Flying`
with physics advancing normally. -/
theorem fuel_invariants (P : Params) (T : TerrainBounds) (D : Detector)
    (g : GameState) (s : CraftState) (c : Control) (dt : ℚ)
    (hdt : 0 ≤ dt) (hrate : 0 ≤ P.fuelRate) (hthr : 0 ≤ c.thrust) :
    (0 ≤ s.fuel → 0 ≤ (advance P s c dt).fuel)
    ∧ (advance P s c dt).fuel ≤ s.fuel
    ∧ (c.thrust = 0 → (advance P s c dt).fuel = s.fuel)
    ∧ (0 < s.fuel → P.fuelRate * c.thrust * dt ≤ s.fuel →
        (advance P s c dt).fuel = s.fuel - P.fuelRate * c.thrust * dt)
    ∧ (s.fuel = 0 →
        advance P s c dt = advance P s { thrust := 0, rotate := c.rotate } dt)
    ∧ (∀ r, (applyOutcome P g (.crashed r)).craft.fuel = g.craft.fuel)
    ∧ (∀ m, (applyOutcome P g (.safe m)).craft.fuel = g.craft.fuel + P.fuelBonus)
    ∧ (g.phase = .flying → checkRound P T D (advance P g.craft c dt) = none →
        step P T D g c dt = { g with craft := advance P g.craft c dt }) := by
  have hd : 0 ≤ P.fuelRate * c.thrust * dt :=
    mul_nonneg (mul_nonneg hrate hthr) hdt
  refine ⟨?_, ?_, ?_, ?_, ?_, ?_, ?_, ?_⟩
  · intro hs
    rw [advance_fuel_eq]
    split_ifs with hf
    · exact le_max_left 0 _
    · exact hs
  · rw [advance_fuel_eq]
    split_ifs with hf
    · rw [show effectiveThrust s c = c.thrust from if_pos hf]
      exact max_le hf.le (sub_le_self _ hd)
    · exact le_refl _
  · intro ht
    rw [advance_fuel_eq]
    split_ifs with hf
    · rw [show effectiveThrust s c = c.thrust from if_pos hf, ht]
      rw [mul_zero, zero_mul, sub_zero]
      exact max_eq_right hf.le
    · rfl
  · intro hf hle
    rw [advance_fuel_eq, if_pos hf,
      show effectiveThrust s c = c.thrust from if_pos hf]
    exact max_eq_right (sub_nonneg.mpr hle)
  · intro hf0
    have hnf : ¬ 0 < s.fuel := by rw [hf0]; exact lt_irrefl 0
    simp [advance, jerkX, jerkY, effectiveThrust, hnf]
  · intro r; rfl
  · intro m; rfl
  · intro hph hchk
    simp [step, hph, hchk]

/-- Witness for the C4 theorem at a concrete frame: fuel does not increase. -/
theorem fuel_invariants_w :
    (advance paramsW craftW controlW 1).fuel ≤ craftW.fuel :=
  (fuel_invariants paramsW boundsW detectorNone gameFlyingW craftW controlW 1
      (by norm_num) (by norm_num [paramsW]) (by norm_num [controlW])).2.1

/-- Claim C5: with a nonnegative fuel level and a positive `Safe`-landing fuel
bonus, a frame step enters `GameOver` only from `GameOver` itself or from a
round that resolved as a crash with the tank at exactly zero; a round that
resolved `Safe` always transitions to `BetweenRounds`; and once in `GameOver`
the step changes nothing (no physics advancement). -/
theorem gameOver_reachability (P : Params) (T : TerrainBounds) (D : Detector)
    (g : GameState) (c : Control) (dt : ℚ)
    (hfuel : 0 ≤ g.craft.fuel) (hbonus : 0 < P.fuelBonus) :
    ((step P T D g c dt).phase = .gameOver →
      g.phase = .gameOver ∨
        ∃ r, g.phase = .resolved (.crashed r) ∧ g.craft.fuel = 0)
    ∧ (∀ m, g.phase = .resolved (.safe m) →
        (step P T D g c dt).phase = .betweenRounds)
    ∧ (g.phase = .gameOver → step P T D g c dt = g) := by
  obtain ⟨phase, craft, score⟩ := g
  dsimp only at hfuel
  refine ⟨?_, ?_, ?_⟩
  · intro hstep
    cases phase with
    | spawning => simp [step] at hstep
    | flying =>
        rw [step] at hstep
        dsimp only at hstep
        rcases hchk : checkRound P T D (advance P craft c dt) with _ | o <;>
          simp [hchk] at hstep
    | resolved o =>
        cases o with
        | safe m =>
            rw [step] at hstep
            simp only [applyOutcome] at hstep
            split_ifs at hstep with hle
            exfalso; linarith
        | crashed r =>
            rw [step] at hstep
            simp only [applyOutcome] at hstep
            split_ifs at hstep with hle
            exact Or.inr ⟨r, rfl, le_antisymm hle hfuel⟩
    | betweenRounds => simp [step] at hstep
    | gameOver => exact Or.inl rfl
  · intro m hph
    cases hph
    rw [step]
    simp only [applyOutcome]
    have : ¬ craft.fuel + P.fuelBonus ≤ 0 := by
      intro hle
      have := add_pos_of_nonneg_of_pos hfuel hbonus
      linarith
    simp [this]
  · intro hph
    cases phase with
    | gameOver => rfl
    | spawning => exact absurd hph (by simp)
    | flying => exact absurd hph (by simp)
    | resolved o => exact absurd hph (by simp)
    | betweenRounds => exact absurd hph (by simp)

/-- Witness for the C5 theorem: a round resolved `Safe` with an empty tank
still goes to `BetweenRounds` (the bonus refuels it), not `GameOver`. -/
theorem gameOver_reachability_w :
    (step paramsW boundsW detectorNone gameResolvedW controlW 1).phase =
      .betweenRounds :=
  (gameOver_reachability paramsW boundsW detectorNone gameResolvedW controlW 1
      (by norm_num [gameResolvedW, craftW]) (by norm_num [paramsW])).2.1 2 rfl

/-- Claim C6: applying a round outcome: a `Safe` landing on a segment with
multiplier `m` adds exactly `baseScore * m` to the score (so `m = 1` on a
non-pad segment adds the plain base score, and a pad multiplier `m > 1`
scales it) and adds the fixed fuel bonus; any crash outcome leaves the whole
state — score and fuel included — unchanged. -/
theorem outcome_application (P : Params) (g : GameState) (m : ℕ) (r : CrashReason) :
    (applyOutcome P g (.safe m)).score = g.score + P.baseScore * m
    ∧ (applyOutcome P g (.safe m)).score - g.score = P.baseScore * m
    ∧ (applyOutcome P g (.safe m)).craft.fuel = g.craft.fuel + P.fuelBonus
    ∧ (applyOutcome P g (.safe 1)).score = g.score + P.baseScore * 1
    ∧ applyOutcome P g (.crashed r) = g := by
  refine ⟨rfl, ?_, rfl, rfl, rfl⟩
  simp [applyOutcome]

/-- Claim C7: the front-end `submitScore` rejects — returning `false` with no
transaction sent — every call whose score is not a positive integer, whose
landed flag is outside {0, 1}, or with no paid game session active; when it
does send, the transaction carries exactly the given score and landed flag
and all three validity conditions held; and the ledger emission modelled from
the spec hands over the final score with landed flag 1 only for `Safe`
outcomes at a terminal game-over. -/
theorem submitScore_validation (w : WalletState) (score landed : ℚ)
    (terminal : Bool) (o : RoundOutcome) (fs : ℕ) (p : ℕ × ℕ) :
    ((¬ (score.den = 1 ∧ 0 < score) ∨ ¬ (landed = 0 ∨ landed = 1) ∨
        w.gameStarted = false) → submitScore w score landed = .rejected)
    ∧ (∀ s l, submitScore w score landed = .sent s l →
        s = score ∧ l = landed ∧ score.den = 1 ∧ 0 < score ∧
          (landed = 0 ∨ landed = 1) ∧ w.connected = true ∧ w.gameStarted = true)
    ∧ (ledgerEmit terminal o fs = some p →
        terminal = true ∧ (∃ m, o = .safe m) ∧ p = (fs, 1)) := by
  refine ⟨?_, ?_, ?_⟩
  · intro hbad
    unfold submitScore
    split_ifs with h1 h2 h3
    · rfl
    · rfl
    · rfl
    · exfalso
      have h1w : w.connected = true ∧ w.gameStarted = true := by
        simpa [not_or] using h1
      push_neg at h2 h3
      rcases hbad with hb | hb | hb
      · rcases not_and_or.mp hb with hb2 | hb2
        · exact hb2 h2.1
        · exact hb2 h2.2
      · rcases eq_or_ne landed 0 with hl | hl
        · exact hb (Or.inl hl)
        · exact hb (Or.inr (h3 hl))
      · rw [h1w.2] at hb
        simp at hb
  · intro s l hsent
    unfold submitScore at hsent
    split_ifs at hsent with h1 h2 h3
    have h1w : w.connected = true ∧ w.gameStarted = true := by
      simpa [not_or] using h1
    push_neg at h2 h3
    injection hsent with hs hl
    refine ⟨hs.symm, hl.symm, h2.1, h2.2, ?_, h1w.1, h1w.2⟩
    rcases eq_or_ne landed 0 with hl0 | hl0
    · exact Or.inl hl0
    · exact Or.inr (h3 hl0)
  · intro hemit
    cases terminal <;> cases o <;> simp_all [ledgerEmit]

/-- Witness for the C7 theorem: a positive integer score with a valid landed
flag is still rejected when no paid game session is active. -/
theorem submitScore_validation_w :
    submitScore { connected := true, gameStarted := false } 5 1 = .rejected :=
  (submitScore_validation { connected := true, gameStarted := false } 5 1
      true (.safe 1) 0 (0, 0)).1 (Or.inr (Or.inr rfl))

/-- Claim C8: determinism of the simulation.  `step` and the spawn are pure
functions of the seed, the control-input sequence and `dt`, so two runs from
equal seeds with equal input sequences produce identical state
trajectories. -/
theorem deterministic_replay (P : Params) (T : TerrainBounds) (D : Detector)
    (seed1 seed2 : ℕ) (ins1 ins2 : List (Control × ℚ))
    (hs : seed1 = seed2) (hi : ins1 = ins2) :
    runSim P T D (initGame seed1) ins1 = runSim P T D (initGame seed2) ins2 := by
  rw [hs, hi]

/-- Witness for the C8 theorem at a concrete seed and input sequence. -/
theorem deterministic_replay_w :
    runSim paramsW boundsW detectorNone (initGame 42) [(controlW, 1)] =
      runSim paramsW boundsW detectorNone (initGame 42) [(controlW, 1)] :=
  deterministic_replay paramsW boundsW detectorNone 42 42
    [(controlW, 1)] [(controlW, 1)] rfl rfl

/-- Counterexample to claim C9 as stated: `drawMultipliers` anchors the label
at the horizontal midpoint at the height of the left endpoint
(`pointY = leftVector.y` in the source), not at the segment's midpoint — on a
slanted segment with multiplier 3 the drawn anchor's y-coordinate 0 differs
from the midpoint's y-coordinate 1. -/
theorem drawMultipliers_midpoint_cex :
    drawMultipliers false [3] [slantSeg] = [mulLabel 3 slantSeg]
    ∧ (mulLabel 3 slantSeg).text = "X3"
    ∧ (mulLabel 3 slantSeg).x = (segMidpoint slantSeg).1
    ∧ (mulLabel 3 slantSeg).y ≠ (segMidpoint slantSeg).2 := by
  refine ⟨rfl, rfl, ?_, ?_⟩
  · norm_num [mulLabel, segMidpoint, slantSeg]
  · norm_num [mulLabel, segMidpoint, slantSeg]

/-- Claim C9 (amended): `drawMultipliers` emits no label at all while the game
is over; otherwise it emits, for exactly the segments whose multiplier is at
least 2, a label reading `"X"` followed by the multiplier, anchored at the
segment's horizontal midpoint at the height of its left endpoint; segments
with multiplier below 2 get no label. -/
theorem drawMultipliers_label_rules (muls : List ℕ) (segs : List HudSegment) :
    drawMultipliers true muls segs = []
    ∧ (∀ m seg, (m, seg) ∈ muls.zip segs → 2 ≤ m →
        mulLabel m seg ∈ drawMultipliers false muls segs)
    ∧ (∀ lab, lab ∈ drawMultipliers false muls segs →
        ∃ m seg, (m, seg) ∈ muls.zip segs ∧ 2 ≤ m ∧
          lab = { text := "X" ++ toString m
                  x := (seg.left.x + seg.right.x) / 2
                  y := seg.left.y }) := by
  refine ⟨rfl, ?_, ?_⟩
  · intro m seg hmem hge
    simp only [drawMultipliers, Bool.false_eq_true, if_false]
    exact List.mem_filterMap.mpr ⟨(m, seg), hmem, by simp [Nat.not_lt.mpr hge]⟩
  · intro lab hmem
    have hmem2 : lab ∈ (muls.zip segs).filterMap
        (fun p => if p.1 < 2 then none else some (mulLabel p.1 p.2)) := by
      simpa [drawMultipliers] using hmem
    obtain ⟨⟨m, seg⟩, hzip, hf⟩ := List.mem_filterMap.mp hmem2
    by_cases hlt : m < 2
    · simp [hlt] at hf
    · refine ⟨m, seg, hzip, Nat.not_lt.mp hlt, ?_⟩
      simp only [if_neg hlt] at hf
      exact (Option.some.inj hf).symm

/-- Witness for the amended C9 theorem: a multiplier-3 segment gets its label
emitted. -/
theorem drawMultipliers_label_rules_w :
    mulLabel 3 slantSeg ∈ drawMultipliers false [3] [slantSeg] :=
  (drawMultipliers_label_rules [3] [slantSeg]).2.1 3 slantSeg (by simp) (by norm_num)

/-- Claim C10: every successful `playGame` call computes the shares by integer
division as `(entryFee * 80) / 100` and `(entryFee * 20) / 100`, transfers
the 20% share to the owner, accounts the 80% remainder as burned (the tokens
stay in the contract), adds the fee to the revenue, and whenever the entry
fee is divisible by 100 — as with the default `100000 * 10^18` — the two
shares sum exactly to the entry fee and the platform share is exactly one
fifth of it. -/
theorem playGame_fee_split (entryFee nowTs : ℕ) (st st2 : ChainState)
    (h : playGame entryFee nowTs st = some st2) :
    st2.ownerBal = st.ownerBal + entryFee * 20 / 100
    ∧ st2.totalBurned = st.totalBurned + entryFee * 80 / 100
    ∧ st2.contractBal = st.contractBal + entryFee - entryFee * 20 / 100
    ∧ st2.totalRevenue = st.totalRevenue + entryFee
    ∧ (100 ∣ entryFee →
        entryFee * 80 / 100 + entryFee * 20 / 100 = entryFee
        ∧ 5 * (entryFee * 20 / 100) = entryFee) := by
  unfold playGame at h
  split_ifs at h
  rw [Option.some.injEq] at h
  subst h
  refine ⟨rfl, rfl, rfl, rfl, ?_⟩
  rintro ⟨k, rfl⟩
  constructor <;> omega

/-- Witness for the C10 theorem: the default fee splits into exactly 20% to
the owner. -/
theorem playGame_fee_split_w :
    playGame feeW 7 chainW = some chainW2
    ∧ chainW2.ownerBal = chainW.ownerBal + feeW * 20 / 100 :=
  ⟨by decide, (playGame_fee_split feeW 7 chainW chainW2 (by decide)).1⟩

end Moonlander
